import Mathlib

/-!
Verification of the process-orchestration core of the `video-converter`
repository (`conv.py`).  The Python source is shallowly embedded: pure
string/number manipulation becomes Lean functions on `String` / `List Char` /
`Nat` / `Int`, Python exceptions become `Except`, the filesystem and the
Python object heap become explicit state values.
-/

/-- Python exception kinds raised by the code paths modelled here. -/
inductive PyErr
  | valueError        -- int() applied to a non-numeric string
  | nameError         -- local variable referenced before assignment
  | wrongCommandLine  -- conv.WrongCommandLine
  | osError           -- os.path.getsize on a missing file
  deriving DecidableEq

/-! ## Shell argument escaping (`conv.escape_shell_arg`, conv.py:19-32)

`escape_shell_arg` is `"'" + arg.replace("'", "'\\''") + "'"`.
`replQuote` is the `str.replace` call, character by character. -/

/-- `arg.replace("'", "'\\''")`: each single quote becomes quote, backslash,
quote, quote; every other character is kept. -/
def replQuote : List Char → List Char
  | [] => []
  | c :: rest =>
    (if c = '\'' then ['\'', '\\', '\'', '\''] else [c]) ++ replQuote rest

/-- conv.py:32 — wrap in single quotes around the quote-replaced body. -/
def escape_shell_arg (s : List Char) : List Char :=
  '\'' :: (replQuote s ++ ['\''])

/-- `escape_shell_arg` on `String`s. -/
def escapeStr (s : String) : String :=
  String.mk (escape_shell_arg s.data)

/-! ## A POSIX shell token splitter (spec §8, "shell token-splitter")

Modelled from the spec: the spec's testable property re-parses the escaped
token "through a shell token-splitter".  This is the spec-side definition of
POSIX field splitting: whitespace separates words; `'...'` protects every
character up to the next quote; `"..."` protects everything except `\` before
`"` or `\`; a bare backslash escapes the next character.  An unterminated
quote or trailing backslash is a parse error (`none`). -/

inductive SMode
  | norm
  | singleQ
  | dblQ
  deriving DecidableEq

/-- One pass of POSIX field splitting.  `cur = none` means no word has been
started; `some w` is the word collected so far. -/
def shellSplitGo : SMode → Option (List Char) → List Char → Option (List (List Char))
  | .norm, cur, [] =>
    some (match cur with | none => [] | some w => [w])
  | .norm, cur, c :: rest =>
    if c = ' ' ∨ c = '\t' ∨ c = '\n' then
      match cur with
      | none => shellSplitGo .norm none rest
      | some w => Option.map (fun ts => w :: ts) (shellSplitGo .norm none rest)
    else if c = '\'' then shellSplitGo .singleQ (some (cur.getD [])) rest
    else if c = '"' then shellSplitGo .dblQ (some (cur.getD [])) rest
    else if c = '\\' then
      match rest with
      | [] => none
      | d :: rest2 => shellSplitGo .norm (some (cur.getD [] ++ [d])) rest2
    else shellSplitGo .norm (some (cur.getD [] ++ [c])) rest
  | .singleQ, _, [] => none
  | .singleQ, cur, c :: rest =>
    if c = '\'' then shellSplitGo .norm cur rest
    else shellSplitGo .singleQ (some (cur.getD [] ++ [c])) rest
  | .dblQ, _, [] => none
  | .dblQ, cur, c :: rest =>
    if c = '"' then shellSplitGo .norm cur rest
    else if c = '\\' then
      match rest with
      | [] => none
      | d :: rest2 =>
        if d = '"' ∨ d = '\\' then
          shellSplitGo .dblQ (some (cur.getD [] ++ [d])) rest2
        else shellSplitGo .dblQ (some (cur.getD [] ++ ['\\', d])) rest2
    else shellSplitGo .dblQ (some (cur.getD [] ++ [c])) rest

/-- POSIX field splitting of a full command-line fragment. -/
def shellSplit (l : List Char) : Option (List (List Char)) :=
  shellSplitGo .norm none l

/-- Unquoted mode: an opening single quote starts a quoted span. -/
lemma shellSplitGo_norm_quote (acc L : List Char) :
    shellSplitGo .norm (some acc) ('\'' :: L) = shellSplitGo .singleQ (some acc) L := by
  rw [shellSplitGo.eq_def]; simp

/-- Unquoted mode, empty current word: an opening single quote starts a word. -/
lemma shellSplitGo_norm_quote_start (L : List Char) :
    shellSplitGo .norm none ('\'' :: L) = shellSplitGo .singleQ (some []) L := by
  rw [shellSplitGo.eq_def]; simp

/-- Unquoted mode: a backslash makes the next character literal. -/
lemma shellSplitGo_norm_backslash (acc L : List Char) (d : Char) :
    shellSplitGo .norm (some acc) ('\\' :: d :: L) =
      shellSplitGo .norm (some (acc ++ [d])) L := by
  rw [shellSplitGo.eq_def]; simp

/-- Unquoted mode, end of input: the current word is the last token. -/
lemma shellSplitGo_norm_end (acc : List Char) :
    shellSplitGo .norm (some acc) [] = some [acc] := by
  rw [shellSplitGo.eq_def]

/-- Single-quoted mode: a quote returns to unquoted mode. -/
lemma shellSplitGo_singleQ_quote (acc L : List Char) :
    shellSplitGo .singleQ (some acc) ('\'' :: L) = shellSplitGo .norm (some acc) L := by
  rw [shellSplitGo.eq_def]; simp

/-- Single-quoted mode: any other character is taken literally. -/
lemma shellSplitGo_singleQ_char (acc L : List Char) (c : Char) (hc : c ≠ '\'') :
    shellSplitGo .singleQ (some acc) (c :: L) =
      shellSplitGo .singleQ (some (acc ++ [c])) L := by
  rw [shellSplitGo.eq_def]; simp [hc]

/-- Processing the quote-replaced body (followed by the closing quote) from
inside a single-quoted span appends the original characters to the current
word and ends with exactly that one word. -/
lemma shellSplitGo_replQuote (s : List Char) :
    ∀ acc : List Char,
      shellSplitGo .singleQ (some acc) (replQuote s ++ ['\'']) = some [acc ++ s] := by
  induction s with
  | nil =>
    intro acc
    show shellSplitGo .singleQ (some acc) ('\'' :: []) = some [acc ++ []]
    rw [shellSplitGo_singleQ_quote, shellSplitGo_norm_end]
    simp
  | cons c rest ih =>
    intro acc
    by_cases hc : c = '\''
    · subst hc
      have hrepl :
          replQuote ('\'' :: rest) ++ ['\''] =
            '\'' :: '\\' :: '\'' :: '\'' :: (replQuote rest ++ ['\'']) := by
        simp [replQuote]
      rw [hrepl, shellSplitGo_singleQ_quote, shellSplitGo_norm_backslash,
        shellSplitGo_norm_quote, ih (acc ++ ['\''])]
      simp
    · have hrepl :
          replQuote (c :: rest) ++ ['\''] = c :: (replQuote rest ++ ['\'']) := by
        simp [replQuote, hc]
      rw [hrepl, shellSplitGo_singleQ_char acc _ c hc, ih (acc ++ [c])]
      simp

/-- C4, confirmed.  Shell-escaping round trip: for every input string
(including strings containing single quotes, spaces, and the backslash),
splitting the output of `escape_shell_arg` with a POSIX shell token-splitter
yields exactly one token whose content equals the original string. -/
theorem escape_shell_arg_roundtrip (s : List Char) :
    shellSplit (escape_shell_arg s) = some [s] := by
  show shellSplitGo .norm none ('\'' :: (replQuote s ++ ['\''])) = some [s]
  rw [shellSplitGo_norm_quote_start, shellSplitGo_replQuote s []]
  simp

/-! ## Generic substring search (Python's `in` operator and position lookup) -/

/-- Python's `pat in l` substring test. -/
def containsSub : List Char → List Char → Bool
  | [], pat => pat.isEmpty
  | l@(_ :: rest), pat => pat.isPrefixOf l || containsSub rest pat

/-- Index of the first occurrence of `pat` in `l`, if any. -/
def firstIdxSub : List Char → List Char → Option Nat
  | [], pat => if pat.isEmpty then some 0 else none
  | l@(_ :: rest), pat =>
    if pat.isPrefixOf l then some 0
    else Option.map (fun n => n + 1) (firstIdxSub rest pat)

/-! ## Scaling filter (`MencoderConverter.get_encode_command.video_filters`,
conv.py:463-478)

Width and height are Python values that are either an `int` or `None`;
`truthy` is Python truthiness (`None` and `0` are falsy). -/

/-- Python truthiness of an optional integer. -/
def truthy : Option Nat → Bool
  | none => false
  | some n => n != 0

/-- conv.py:463-478 — the `-vf` argument substring: an if/elif/elif chain on
the truthiness of `self.width` and `self.height`, then
`('-vf ' + ','.join(bits)) if bits else ''`. -/
def video_filters (w h : Option Nat) : String :=
  let bits : List String :=
    if truthy w && truthy h then
      ["scale=" ++ toString (w.getD 0) ++ ":" ++ toString (h.getD 0)]
    else if truthy w && !truthy h then
      ["scale=" ++ toString (w.getD 0) ++ ":-"]
    else if !truthy w && truthy h then
      ["scale=-:" ++ toString (h.getD 0)]
    else []
  if bits.isEmpty then "" else "-vf " ++ String.intercalate "," bits

/-- C1, counterexample.  For width=640 and height unset the emitted filter is
`scale=640:-` (mencoder's automatic-height marker), not `scale=640:auto`: the
command never contains the text `scale=640:auto`. -/
theorem video_filters_not_auto :
    video_filters (some 640) none = "-vf scale=640:-" ∧
    containsSub (video_filters (some 640) none).data "scale=640:auto".data = false := by
  exact ⟨rfl, rfl⟩

lemma intercalate_comma_single (x : String) : String.intercalate "," [x] = x := rfl

/-- C1, amended.  Four-shape scaling rule as the code implements it: both
width and height set (truthy) → `scale=W:H`; only width → `scale=W:-`;
only height → `scale=-:H`; neither → no `-vf` segment at all (empty string).
 -/
theorem video_filters_shape (w h : Option Nat) :
    (truthy w = true → truthy h = true →
      video_filters w h = "-vf scale=" ++ toString (w.getD 0) ++ ":" ++ toString (h.getD 0)) ∧
    (truthy w = true → truthy h = false →
      video_filters w h = "-vf scale=" ++ toString (w.getD 0) ++ ":-") ∧
    (truthy w = false → truthy h = true →
      video_filters w h = "-vf scale=-:" ++ toString (h.getD 0)) ∧
    (truthy w = false → truthy h = false → video_filters w h = "") := by
  refine ⟨fun hw hh => ?_, fun hw hh => ?_, fun hw hh => ?_, fun hw hh => ?_⟩
  · simp only [video_filters, hw, hh, Bool.and_self, if_true, List.isEmpty_cons,
      Bool.false_eq_true, if_false, Bool.true_and, intercalate_comma_single]
    simp only [← String.append_assoc]
    rw [show "-vf " ++ "scale=" = "-vf scale=" from rfl]
  · simp only [video_filters, hw, hh, Bool.and_true, Bool.and_false, Bool.not_false,
      Bool.not_true, Bool.true_and, Bool.false_and, List.isEmpty_cons,
      Bool.false_eq_true, if_false, if_true, intercalate_comma_single]
    simp only [← String.append_assoc]
    rw [show "-vf " ++ "scale=" = "-vf scale=" from rfl]
  · simp only [video_filters, hw, hh, Bool.and_true, Bool.and_false, Bool.not_false,
      Bool.not_true, Bool.true_and, Bool.false_and, List.isEmpty_cons,
      Bool.false_eq_true, if_false, if_true, intercalate_comma_single]
    simp only [← String.append_assoc]
    rw [show "-vf " ++ "scale=-:" = "-vf scale=-:" from rfl]
  · simp [video_filters, hw, hh]

/-- C1 witness: the amended rule evaluated on the four concrete shapes. -/
theorem video_filters_shape_witness :
    video_filters (some 640) (some 480) = "-vf scale=640:480" ∧
    video_filters (some 640) none = "-vf scale=640:-" ∧
    video_filters none (some 480) = "-vf scale=-:480" ∧
    video_filters none none = "" := by
  refine ⟨?_, ?_, ?_, ?_⟩
  · exact (video_filters_shape (some 640) (some 480)).1 rfl rfl
  · exact (video_filters_shape (some 640) none).2.1 rfl rfl
  · exact (video_filters_shape none (some 480)).2.2.1 rfl rfl
  · exact (video_filters_shape none none).2.2.2 rfl rfl

/-! ## Snapshot command construction (`conv.make_snapshot`, conv.py:207-213) -/

/-- Python's `' '.join`. -/
def joinSpace : List String → String
  | [] => ""
  | [x] => x
  | x :: rest => x ++ " " ++ joinSpace rest

/-- conv.py:207-212 — the list passed to `' '.join`, in source order. -/
def make_snapshot_segments (video snapshot : String) (position : Nat) : List String :=
  ["ffmpeg",
   "-ss " ++ toString position,
   "-i  " ++ escapeStr video,
   "-an -vframes 1 -y -f mjpeg",
   escapeStr snapshot]

/-- conv.py:207-212 — the full ffmpeg snapshot command string. -/
def make_snapshot_command (video snapshot : String) (position : Nat) : String :=
  joinSpace (make_snapshot_segments video snapshot position)

/-- C3, counterexample.  In the built snapshot command the seek-offset
argument `-ss` occurs at index 7, before the input-file argument `-i` at
index 13 — not after it as claimed. -/
theorem make_snapshot_ss_before_i :
    make_snapshot_command "v.avi" "s.jpg" 5 =
      "ffmpeg -ss 5 -i  'v.avi' -an -vframes 1 -y -f mjpeg 's.jpg'" ∧
    firstIdxSub (make_snapshot_command "v.avi" "s.jpg" 5).data "-ss".data = some 7 ∧
    firstIdxSub (make_snapshot_command "v.avi" "s.jpg" 5).data "-i".data = some 13 ∧
    7 < 13 := by
  exact ⟨rfl, rfl, rfl, by norm_num⟩

/-- C3, amended.  For every invocation, the built command places the
seek-offset argument `-ss <offset>` immediately after `ffmpeg` and *before*
the input-file argument `-i <video>` (matching the docstring's example
command, where the pre-input `-ss` avoids a full-file scan). -/
theorem make_snapshot_command_shape (video snapshot : String) (position : Nat) :
    (make_snapshot_command video snapshot position).data =
      "ffmpeg -ss ".data ++ (toString position).data ++ " -i  ".data ++
      (escapeStr video).data ++ " -an -vframes 1 -y -f mjpeg ".data ++
      (escapeStr snapshot).data := by
  simp [make_snapshot_command, make_snapshot_segments, joinSpace,
    String.data_append, List.append_assoc]

/-! ## Snapshot output validation (`conv.make_snapshot`, conv.py:215-219)

The filesystem is a map from filename to `some size` (file present) or
`none` (file absent). -/

/-- `os.path.getsize`: size of an existing file, `OSError` if absent. -/
def getsize (fs : String → Option Nat) (f : String) : Except PyErr Nat :=
  match fs f with
  | some n => .ok n
  | none => .error .osError

/-- `os.remove`: drop the file from the filesystem map. -/
def removeFile (fs : String → Option Nat) (f : String) : String → Option Nat :=
  fun g => if g = f then none else fs g

/-- conv.py:215-219 — after the ffmpeg run:
`if not os.path.getsize(snapshot_filename) > 0: os.remove(...); return False`
`return True`.  Returns the flag and the (possibly updated) filesystem. -/
def make_snapshot_check (fs : String → Option Nat) (snapshot : String) :
    Except PyErr (Bool × (String → Option Nat)) :=
  match getsize fs snapshot with
  | .error e => .error e
  | .ok sz =>
    if ¬ (sz > 0) then .ok (false, removeFile fs snapshot)
    else .ok (true, fs)

/-- C5, counterexample.  When the output file is absent, `os.path.getsize`
raises `OSError` before the size test: the call does not return an ordinary
`False` failure report but propagates an unhandled error. -/
theorem make_snapshot_absent_raises :
    make_snapshot_check (fun _ => none) "snap.jpeg" = .error .osError := rfl

/-- C5, amended.  After the thumbnail subprocess is drained: if the output
file exists with zero size, the partial file is deleted and the call reports
failure (`false`); if it exists with positive size the call reports success
(`true`); if the file is absent, `os.path.getsize` raises an unhandled
`OSError` instead of reporting failure. -/
theorem make_snapshot_check_cases (fs : String → Option Nat) (snap : String) :
    (fs snap = some 0 → make_snapshot_check fs snap = .ok (false, removeFile fs snap)) ∧
    (∀ n : Nat, fs snap = some (n + 1) → make_snapshot_check fs snap = .ok (true, fs)) ∧
    (fs snap = none → make_snapshot_check fs snap = .error .osError) := by
  refine ⟨fun h => ?_, fun n h => ?_, fun h => ?_⟩ <;>
    simp [make_snapshot_check, getsize, h]

/-- Example filesystem holding one empty snapshot file. -/
def fsZero : String → Option Nat := fun f => if f = "snap.jpeg" then some 0 else none

/-- Example filesystem holding one 6-byte snapshot file. -/
def fsPos : String → Option Nat := fun f => if f = "snap.jpeg" then some 6 else none

/-- Example filesystem holding no files. -/
def fsEmpty : String → Option Nat := fun _ => none

/-- C5 witness: the three amended cases evaluated on concrete filesystems. -/
theorem make_snapshot_check_cases_witness :
    make_snapshot_check fsZero "snap.jpeg" = .ok (false, removeFile fsZero "snap.jpeg") ∧
    make_snapshot_check fsPos "snap.jpeg" = .ok (true, fsPos) ∧
    make_snapshot_check fsEmpty "snap.jpeg" = .error .osError :=
  ⟨(make_snapshot_check_cases fsZero "snap.jpeg").1 rfl,
   (make_snapshot_check_cases fsPos "snap.jpeg").2.1 5 rfl,
   (make_snapshot_check_cases fsEmpty "snap.jpeg").2.2 rfl⟩

/-! ## Mencoder progress tracker
(`MencoderConverter.parse_converter_output`, conv.py:494-520)

The handler matches `re.compile('^Pos:.*?\(\s*?(\d+)%\)').match(line)`.
`.match` anchors at the start; `^Pos:` demands the literal prefix; the lazy
`.*?` scans left to right (never across a newline, which `.` cannot match)
for the first position where `\(\s*?(\d+)%\)` matches; since whitespace,
digits and `%` are disjoint, that tail pattern is deterministic. -/

/-- Value of a digit string (`int()` on a digit-only match group). -/
def digitsToInt (ds : List Char) : Int :=
  ds.foldl (fun a c => a * 10 + ((c.toNat : Int) - 48)) 0

/-- Try `\(\s*?(\d+)%\)` at the head of `l`; returns the digit group. -/
def matchPercentAt : List Char → Option (List Char)
  | '(' :: rest =>
    let rest2 := rest.dropWhile (fun c => c.isWhitespace)
    let ds := rest2.takeWhile (fun c => c.isDigit)
    let rest3 := rest2.dropWhile (fun c => c.isDigit)
    if ds.isEmpty then none
    else if rest3.take 2 = ['%', ')'] then some ds else none
  | _ => none

/-- The lazy `.*?` scan: first position where the percent tail matches;
`.` cannot cross a newline. -/
def scanPercent : List Char → Option (List Char)
  | [] => none
  | c :: rest =>
    match matchPercentAt (c :: rest) with
    | some ds => some ds
    | none => if c = '\n' then none else scanPercent rest

/-- conv.py:506 — the whole `pos_match` regex against a line. -/
def posMatchLine (l : List Char) : Option (List Char) :=
  if "Pos:".data.isPrefixOf l then scanPercent (l.drop 4) else none

/-- A Python 2 value that is either an `int` or a `str`: the mutable
`percent['percent']` cell starts as the int `0` and afterwards holds the
matched group, a string. -/
inductive PyVal
  | int (n : Int)
  | str (s : List Char)
  deriving DecidableEq

/-- Python 2 `!=` between the percent cell and a match-group string: an int
never equals a str; two strs compare by content. -/
def pyNeq : PyVal → List Char → Bool
  | .int _, _ => true
  | .str t, c => t != c

/-- Python `int()` of the percent cell (always an int or a digit string). -/
def pyValToInt : PyVal → Int
  | .int n => n
  | .str s => digitsToInt s

/-- conv.py:502 — the fatal command-line error signature. -/
def errSig : List Char := "Error parsing option on the command line".data

/-- Tracker state: the `percent` dict cell plus the emitted
`(old, new)` progress events in order. -/
structure MencState where
  percent : PyVal
  events : List (Int × Int)
  deriving DecidableEq

/-- conv.py:501-513 — one line of the mencoder stream handler. -/
def mencoderLineHandler (st : MencState) (line : List Char) : Except PyErr MencState :=
  if containsSub line errSig then .error .wrongCommandLine
  else
    match posMatchLine line with
    | none => .ok st
    | some curr =>
      if pyNeq st.percent curr then
        .ok ⟨.str curr, st.events ++ [(pyValToInt st.percent, digitsToInt curr)]⟩
      else .ok st

/-- conv.py:499,515-518 — feed a whole line stream to the handler, starting
from `percent = {'percent': 0}`. -/
def mencoderRun (lines : List (List Char)) : Except PyErr MencState :=
  lines.foldlM mencoderLineHandler ⟨.int 0, []⟩

/-- C6, confirmed.  Feeding `Pos:` lines carrying `(10%)`, `(10%)`, `(25%)`
produces exactly the two events `(0,10)` and `(10,25)`: the repeated percent
is suppressed and each distinct new percent emits one `(old,new)` event. -/
theorem mencoder_percent_events :
    mencoderRun
      ["Pos: 1.0s (10%)".data, "Pos: 2.0s (10%)".data, "Pos: 5.0s (25%)".data] =
      .ok ⟨.str "25".data, [(0, 10), (10, 25)]⟩ := rfl

/-! ## FFmpeg progress tracker
(`FFMpegConverter.parse_converter_output`, conv.py:527-566)

The two regexes are `'^Duration: (d{2}):(d{2}):(d{2}).(d{2})$'` and
`'time=(d{2}):(d{2}):(d{2})\.(\d{2})'`, both used with `.match` (anchored at
the start of the line).  `d{2}` (no backslash) matches the literal text
`dd`, so the first three groups of either regex can only ever be `dd`.
`$` also matches just before a final newline. -/

/-- Does the duration regex match the line?  Needs the literal prefix
`Duration: dd:dd:dd`, then any non-newline character, then `dd`, then end of
line (optionally a final newline). -/
def durMatch (l : List Char) : Bool :=
  "Duration: dd:dd:dd".data.isPrefixOf l &&
    (match l.drop 18 with
     | [c, x, y] => c != '\n' && x == 'd' && y == 'd'
     | [c, x, y, nl] => c != '\n' && x == 'd' && y == 'd' && nl == '\n'
     | _ => false)

/-- Does the progress regex match the line?  Needs the literal prefix
`time=dd:dd:dd.` then two digits. -/
def progMatch (l : List Char) : Bool :=
  "time=dd:dd:dd.".data.isPrefixOf l &&
    (match l.drop 14 with
     | a :: b :: _ => a.isDigit && b.isDigit
     | _ => false)

/-- Python `int()` on a match group: succeeds only on digits, otherwise
raises `ValueError` (so `int("dd")` raises). -/
def pyIntParse (s : List Char) : Except PyErr Int :=
  if s ≠ [] ∧ s.all (fun c => c.isDigit) then .ok (digitsToInt s) else .error .valueError

/-- conv.py:538-543 — `3600*int(g(1)) + 60*int(g(2)) + int(g(3))`. -/
def time2sec (g1 g2 g3 : List Char) : Except PyErr Int := do
  let h ← pyIntParse g1
  let m ← pyIntParse g2
  let s ← pyIntParse g3
  pure (3600 * h + 60 * m + s)

/-- Tracker state: the `percent` dict cell (always an int here) and the
emitted events.  The dict's `duration` key is never written by the code:
the handler stores the parsed duration in a function-local variable. -/
structure FFState where
  percent : Int
  events : List (Int × Int)
  deriving DecidableEq

/-- conv.py:534-560 — one line of the ffmpeg stream handler.  When the
duration regex matches, `time2sec` is applied to its groups — which are
always the literal `dd`, so `int()` raises `ValueError`.  When only the
progress regex matches, the branch reads the function-local `duration`,
which was never assigned in this call, raising `NameError`. -/
def ffmpegLineHandler (st : FFState) (l : List Char) : Except PyErr FFState :=
  if durMatch l then
    match time2sec "dd".data "dd".data "dd".data with
    | .error e => .error e
    | .ok d =>
      if progMatch l then
        match time2sec "dd".data "dd".data "dd".data with
        | .error e => .error e
        | .ok t =>
          let curr := if d ≠ 0 then t * 100 / d else 0
          if st.percent ≠ curr then .ok ⟨curr, st.events ++ [(st.percent, curr)]⟩
          else .ok st
      else .ok st
  else if progMatch l then .error .nameError
  else .ok st

/-- conv.py:532,562-566 — feed a line stream to the handler, starting from
`percent = {'percent': 0, 'duration': 0}`. -/
def ffmpegRun (lines : List (List Char)) : Except PyErr FFState :=
  lines.foldlM ffmpegLineHandler ⟨0, []⟩

/-- C2, code bug.  A real ffmpeg duration line and a following timestamp
line at 50 of 100 seconds match neither malformed regex (their `d{2}` only
matches the literal text `dd`), so no `(0,50)` event — no event at all — is
ever produced; and on the only lines the regexes do match, the handler
raises `ValueError` (duration group `dd` fed to `int()`) or `NameError`
(function-local `duration` read before assignment). -/
theorem ffmpeg_tracker_no_events :
    ffmpegRun ["Duration: 00:01:40.00".data, "time=00:00:50.00".data] = .ok ⟨0, []⟩ ∧
    durMatch "Duration: 00:01:40.00".data = false ∧
    progMatch "time=00:00:50.00".data = false ∧
    ffmpegLineHandler ⟨0, []⟩ "Duration: dd:dd:dd.dd".data = .error .valueError ∧
    ffmpegLineHandler ⟨0, []⟩ "time=dd:dd:dd.50".data = .error .nameError :=
  ⟨rfl, rfl, rfl, rfl, rfl⟩

/-! ## Streaming process runner (`conv.popen`, conv.py:72-109)

The subprocess's stream is modelled as the list of successive
`stream.readline()` results; `""` is a blank (zero-length) read.  The model
is only instantiated on lists long enough that the loop breaks inside them.
The first component is the list of lines delivered to the handler, in
order; the second is the number of `readline` calls performed before the
call returns. -/

/-- conv.py:96-109 — the read loop.  A blank read increments `eof_count`
(after first checking `eof_count > miss_count` and breaking); a non-blank
read resets `eof_count` to `0` and hands the line to the handler. -/
def popenLoop : List String → Nat → Nat → List String × Nat
  | [], _, _ => ([], 0)
  | line :: rest, missCount, eofCount =>
    if line.length < 1 then
      if eofCount > missCount then ([], 1)
      else
        let r := popenLoop rest missCount (eofCount + 1)
        (r.1, r.2 + 1)
    else
      let r := popenLoop rest missCount 0
      (line :: r.1, r.2 + 1)

/-- C7, counterexample.  With the default `miss_count = 5` the loop does
*not* return once 5 consecutive blank reads are exceeded: after 6
consecutive blank reads it still reads and handles `"x"` (14 reads in
total here), and a run of blanks only ends the call on the 7th consecutive
blank read. -/
theorem popen_blank_reads_not_five :
    popenLoop (List.replicate 6 "" ++ ["x"] ++ List.replicate 7 "") 5 0 = (["x"], 14) ∧
    popenLoop (List.replicate 7 "") 5 0 = ([], 7) := ⟨rfl, rfl⟩

/-- C7, amended.  With the default `miss_count = 5`, up to 6 consecutive
blank reads are tolerated (the check `eof_count > miss_count` sees the count
of *previous* consecutive blanks), so the stream is declared finished on the
7th consecutive blank read; any non-blank read resets the count to zero, as
the continuation `popenLoop rest 5 0` shows. -/
theorem popenLoop_tolerance (k : Nat) (hk : k ≤ 6) (line : String)
    (hline : 0 < line.length) (rest : List String) :
    popenLoop (List.replicate k "" ++ line :: rest) 5 0 =
      (line :: (popenLoop rest 5 0).1, k + 1 + (popenLoop rest 5 0).2) ∧
    popenLoop (List.replicate 7 "") 5 0 = ([], 7) := by
  have h0 : ¬ (line.length < 1) := by omega
  refine ⟨?_, rfl⟩
  interval_cases k <;>
    simp [popenLoop, h0, List.replicate, Prod.ext_iff] <;> omega

/-- C7 witness: the amended tolerance rule at 6 blanks followed by `"x"`. -/
theorem popenLoop_tolerance_witness :
    popenLoop (List.replicate 6 "" ++ ["x"]) 5 0 = (["x"], 7) ∧
    popenLoop (List.replicate 7 "") 5 0 = ([], 7) :=
  popenLoop_tolerance 6 (by decide) "x" (by decide) []

/-! ## Snapshot offset planning (`BaseConverter.make_snapshot`,
conv.py:337-363)

`duration` is the integer metadata duration; `step` is
`math.floor(float(duration / num))`, which for non-negative integers is the
integer division `duration / num`; the offsets are
`xrange(1, duration - 1, step)` plus the appended final second and midpoint
`math.floor(float(duration) / 2)`. -/

/-- Python's `xrange(start, stop, step)` for a positive step.  (`xrange`
raises for a zero step; the `[]` stand-in is never reached here.) -/
def xrangeList (start stop step : Nat) : List Nat :=
  if step = 0 then []
  else (List.range ((stop - start + step - 1) / step)).map (fun i => start + i * step)

/-- conv.py:342-352 — the planned snapshot offsets, in attempt order. -/
def planOffsets (duration num : Nat) : List Nat :=
  let step := duration / num
  let seconds := xrangeList 1 (duration - 1) step
  seconds ++ [duration, duration / 2]

/-- conv.py:328-335 — `'{video_file}_{second}.jpeg'`. -/
def snapshot_filename (movieConverted : String) (second : Nat) : String :=
  movieConverted ++ "_" ++ toString second ++ ".jpeg"

/-- conv.py:354-363 — the attempt loop.  `outcome p` is what the
`make_snapshot` call at conv.py:362 does for position `p`: `.ok true`
(snapshot written, entered into the dict), `.ok false` (zero-size file
deleted, ordinary failure report), or `.error e` (the absent-output-file
`OSError` of conv.py:216, see `make_snapshot_check`).  The loop catches
nothing, so a raised exception aborts it.  Returns the positions on which
`make_snapshot` was actually called (in order), the snapshot dict entries,
and the exception that escaped the loop, if any. -/
def snapshotLoop (outcome : Nat → Except PyErr Bool) (movie : String) :
    List Nat → List Nat × List (Nat × String) × Option PyErr
  | [] => ([], [], none)
  | p :: rest =>
    let thumb := snapshot_filename movie p
    match outcome p with
    | .error e => ([p], [], some e)
    | .ok b =>
      let r := snapshotLoop outcome movie rest
      (p :: r.1, (if b then [(p, thumb)] else []) ++ r.2.1, r.2.2)

/-- When no attempt raises, every offset is attempted (in order) and the
loop completes, whatever mix of ordinary successes and failures occurred. -/
lemma snapshotLoop_all_ok (outcome : Nat → Except PyErr Bool) (movie : String) :
    ∀ l : List Nat, (∀ p ∈ l, ∃ b, outcome p = .ok b) →
      (snapshotLoop outcome movie l).1 = l ∧
      (snapshotLoop outcome movie l).2.2 = none := by
  intro l
  induction l with
  | nil => exact fun _ => ⟨rfl, rfl⟩
  | cons p rest ih =>
    intro h
    obtain ⟨b, hb⟩ := h p (List.mem_cons_self p rest)
    have hrest := ih (fun q hq => h q (List.mem_cons_of_mem p hq))
    simp [snapshotLoop, hb, hrest.1, hrest.2]

/-- The first raising offset ends the loop: everything before it and the
raising offset itself are attempted, nothing after it is. -/
lemma snapshotLoop_aborts (outcome : Nat → Except PyErr Bool) (movie : String)
    (p : Nat) (e : PyErr) (he : outcome p = .error e) :
    ∀ l1 l2 : List Nat, (∀ q ∈ l1, ∃ b, outcome q = .ok b) →
      (snapshotLoop outcome movie (l1 ++ p :: l2)).1 = l1 ++ [p] ∧
      (snapshotLoop outcome movie (l1 ++ p :: l2)).2.2 = some e := by
  intro l1
  induction l1 with
  | nil =>
    intro l2 _
    simp [snapshotLoop, he]
  | cons q rest ih =>
    intro l2 h
    obtain ⟨b, hb⟩ := h q (List.mem_cons_self q rest)
    have hrest := ih l2 (fun x hx => h x (List.mem_cons_of_mem q hx))
    simp [snapshotLoop, hb, hrest.1, hrest.2]

/-- The `make_snapshot` outcomes in which only the appended final-second
offset 100 hits the absent-output-file `OSError` path of conv.py:216. -/
def failAt100 : Nat → Except PyErr Bool :=
  fun p => if p = 100 then .error .osError else .ok true

/-- C8, counterexample.  When the snapshot attempt at the appended offset
100 fails the absent-output-file way (`OSError`, conv.py:216), the loop at
conv.py:354-363 aborts: the midpoint offset 50 is never attempted, so a
single failed offset can abort the set. -/
theorem plan_offsets_abort_on_oserror :
    (snapshotLoop failAt100 "out.flv" (planOffsets 100 10)).1 =
      [1, 11, 21, 31, 41, 51, 61, 71, 81, 91, 100] ∧
    (snapshotLoop failAt100 "out.flv" (planOffsets 100 10)).2.2 = some .osError ∧
    50 ∉ (snapshotLoop failAt100 "out.flv" (planOffsets 100 10)).1 :=
  ⟨rfl, rfl, by decide⟩

/-- C8, amended.  For duration=100 and count=10 the planner computes step
`floor(100/10) = 10` and plans, in order, `1,11,...,91`, then the appended
final second `100` and midpoint `50`.  An offset whose attempt merely
*reports* failure (`make_snapshot` returns `False`, the zero-size case)
does not abort the set: when no attempt raises, every planned offset is
attempted.  But the loop catches nothing, so the first offset whose attempt
*raises* (the absent-output-file `OSError` of conv.py:216) aborts all
remaining offsets. -/
theorem plan_offsets_100_10 :
    planOffsets 100 10 = [1, 11, 21, 31, 41, 51, 61, 71, 81, 91, 100, 50] ∧
    (∀ (outcome : Nat → Except PyErr Bool) (movie : String),
      (∀ p ∈ planOffsets 100 10, ∃ b, outcome p = .ok b) →
        (snapshotLoop outcome movie (planOffsets 100 10)).1 = planOffsets 100 10 ∧
        (snapshotLoop outcome movie (planOffsets 100 10)).2.2 = none) ∧
    (∀ (outcome : Nat → Except PyErr Bool) (movie : String) (l1 l2 : List Nat)
        (p : Nat) (e : PyErr),
      outcome p = .error e → (∀ q ∈ l1, ∃ b, outcome q = .ok b) →
        (snapshotLoop outcome movie (l1 ++ p :: l2)).1 = l1 ++ [p] ∧
        (snapshotLoop outcome movie (l1 ++ p :: l2)).2.2 = some e) :=
  ⟨by decide,
   fun outcome movie h => snapshotLoop_all_ok outcome movie _ h,
   fun outcome movie l1 l2 p e he h => snapshotLoop_aborts outcome movie p e he l1 l2 h⟩

/-- C8 witness: the amended rule at an all-success run over the planned
offsets, and at a run whose offset 100 raises after a successful offset 1. -/
theorem plan_offsets_100_10_witness :
    ((snapshotLoop (fun _ => .ok true) "out.flv" (planOffsets 100 10)).1 =
        planOffsets 100 10 ∧
      (snapshotLoop (fun _ => .ok true) "out.flv" (planOffsets 100 10)).2.2 = none) ∧
    ((snapshotLoop failAt100 "out.flv" ([1] ++ 100 :: [50])).1 = [1] ++ [100] ∧
      (snapshotLoop failAt100 "out.flv" ([1] ++ 100 :: [50])).2.2 = some .osError) :=
  ⟨plan_offsets_100_10.2.1 (fun _ => .ok true) "out.flv" (fun p _ => ⟨true, rfl⟩),
   plan_offsets_100_10.2.2 failAt100 "out.flv" [1] [50] 100 .osError rfl
     (fun q hq => ⟨true, by rcases List.mem_singleton.mp hq with rfl; rfl⟩)⟩

/-! ## `ConvertResult` class-level dictionaries (conv.py:255-275, 354-363)

`ConvertResult` has no `__init__`; `metadata = {}` and `snapshots = {}` run
once, at class-body evaluation, so every instance's attribute lookup finds
the *same* two dict objects on the class.  The heap maps a dict object id
to its contents; the class attributes hold fixed ids 0 and 1. -/

/-- The Python heap of dict objects (id → entries, newest first). -/
structure PyHeap where
  dicts : Nat → List (Nat × String)

/-- The id of the single dict object each `ConvertResult` class attribute
references (created once at class-body evaluation, conv.py:272,275). -/
def classAttrRef (name : String) : Option Nat :=
  if name = "snapshots" then some 0
  else if name = "metadata" then some 1
  else none

/-- A `ConvertResult` instance: only its own `__dict__` (name → object id). -/
structure PyInstance where
  attrs : List (String × Nat)

/-- `ConvertResult()` — no `__init__`, so the instance `__dict__` starts
empty and the heap is untouched. -/
def newConvertResult : PyInstance := ⟨[]⟩

/-- Python attribute lookup: the instance `__dict__` first, then the class. -/
def getAttrRef (inst : PyInstance) (name : String) : Option Nat :=
  match inst.attrs.lookup name with
  | some r => some r
  | none => classAttrRef name

/-- Mutate one dict object in the heap. -/
def dictInsert (h : PyHeap) (ref : Nat) (k : Nat) (v : String) : PyHeap :=
  ⟨fun i => if i = ref then (k, v) :: h.dicts i else h.dicts i⟩

/-- `inst.<name>[k] = v` (conv.py:363): look the attribute up, then mutate
the referenced dict object in place. -/
def attrDictInsert (h : PyHeap) (inst : PyInstance) (name : String)
    (k : Nat) (v : String) : PyHeap :=
  match getAttrRef inst name with
  | some r => dictInsert h r k v
  | none => h

/-- Read `inst.<name>`'s dict contents. -/
def attrDictRead (h : PyHeap) (inst : PyInstance) (name : String) :
    List (Nat × String) :=
  match getAttrRef inst name with
  | some r => h.dicts r
  | none => []

/-- C9, confirmed.  Any two `ConvertResult` instances whose own `__dict__`
lacks a `snapshots` entry (as every freshly constructed instance does) alias
the one class-level dict: inserting an offset→path entry through `r1` makes
the same entry observable through `r2`, so a fresh instance need not start
with an empty snapshot set. -/
theorem convert_result_shared_dicts (h : PyHeap) (r1 r2 : PyInstance)
    (h1 : r1.attrs.lookup "snapshots" = none)
    (h2 : r2.attrs.lookup "snapshots" = none)
    (k : Nat) (v : String) :
    attrDictRead (attrDictInsert h r1 "snapshots" k v) r2 "snapshots" =
      (k, v) :: attrDictRead h r2 "snapshots" := by
  simp [attrDictRead, attrDictInsert, getAttrRef, classAttrRef, dictInsert, h1, h2]

/-- The heap before any conversion: both class dicts empty. -/
def emptyHeap : PyHeap := ⟨fun _ => []⟩

/-- C9 witness: two freshly constructed instances share the snapshot dict. -/
theorem convert_result_shared_dicts_witness :
    attrDictRead (attrDictInsert emptyHeap newConvertResult "snapshots" 3 "out.flv_3.jpeg")
      newConvertResult "snapshots" = [(3, "out.flv_3.jpeg")] :=
  convert_result_shared_dicts emptyHeap newConvertResult newConvertResult rfl rfl
    3 "out.flv_3.jpeg"

/-! ## Encode stage and pipeline (`BaseConverter.encode`, conv.py:317-326;
`BaseConverter.convert`, conv.py:301-315)

`encode` optionally runs `parse_converter_output` (which may raise), then
drains the encoder subprocess through `popen` — whose return value and exit
status are never examined — and returns `True`. -/

/-- conv.py:317-326 — `BaseConverter.encode`, parametrised by the parser's
outcome and by the encoder subprocess's behaviour (exit status and output
lines), both of which the code ignores. -/
def encode (parserOutcome : Except PyErr Unit) (subprocessExit : Int)
    (subprocessOutput : List String) : Except PyErr Bool := do
  let _ ← parserOutcome
  let _ := popenLoop subprocessOutput 5 0
  let _ := subprocessExit
  pure true

/-- The fields of the conversion result the pipeline claim is about. -/
structure ConvResult where
  converted : Bool
  snapshotStageRan : Bool
  injectStageRan : Bool
  deriving DecidableEq

/-- conv.py:301-315 — `BaseConverter.convert`: `result.converted` is
`encode`'s value; the snapshot and metadata-injection stages run iff it is
truthy. -/
def convert (parserOutcome : Except PyErr Unit) (subprocessExit : Int)
    (subprocessOutput : List String) : Except PyErr ConvResult := do
  let c ← encode parserOutcome subprocessExit subprocessOutput
  if c then pure ⟨c, true, true⟩ else pure ⟨c, false, false⟩

/-- C10, confirmed.  Whenever `encode` completes without raising it returns
`True` — never `False` — regardless of the encoder subprocess's exit status
or output; hence in every non-exception run `convert` sets `converted` and
runs the snapshot and metadata-injection stages. -/
theorem encode_always_true (po : Except PyErr Unit) (exitCode : Int)
    (out : List String) (b : Bool) (r : ConvResult)
    (hb : encode po exitCode out = .ok b)
    (hr : convert po exitCode out = .ok r) :
    b = true ∧ r.converted = true ∧ r.snapshotStageRan = true ∧
      r.injectStageRan = true := by
  cases po with
  | error e => simp [encode] at hb
  | ok u =>
    have hb2 : (Except.ok true : Except PyErr Bool) = Except.ok b := by
      rw [← hb]; rfl
    have hr2 : (Except.ok ⟨true, true, true⟩ : Except PyErr ConvResult) = Except.ok r := by
      rw [← hr]; rfl
    injection hb2 with hb3
    injection hr2 with hr3
    subst hb3
    subst hr3
    exact ⟨rfl, rfl, rfl, rfl⟩

/-- C10 witness: a run whose encoder subprocess exits with status 1 still
reports success and runs both follow-up stages. -/
theorem encode_always_true_witness :
    (true : Bool) = true ∧ (ConvResult.mk true true true).converted = true ∧
      (ConvResult.mk true true true).snapshotStageRan = true ∧
      (ConvResult.mk true true true).injectStageRan = true :=
  encode_always_true (.ok ()) 1 [] true ⟨true, true, true⟩ rfl rfl
